import Mathlib

set_option linter.unusedVariables false

/-!
# Verification of the typesense-go client library

Shallow embedding of the typesense-go client (collections.go, apikey.go)
and proofs about it.  Go strings and byte slices are modelled as `List Nat`
(each element a byte value), JSON response bodies as an inductive `Json`
value, and the HTTP transport as the single round-trip result each
operation consumes.  Fallible Go code returns `Except`/`Option`.
-/

namespace Typesense

/-! ## Bytes

A Go `string` / `[]byte` is a sequence of bytes; we model it as `List Nat`
with every element below 256. -/

abbrev Bytes := List Nat

/-! ## SHA-256 (crypto/sha256)

A faithful model of the SHA-256 function from Go's standard library
`crypto/sha256`: 32-bit words are `Nat` reduced modulo `2 ^ 32` after every
arithmetic step. -/

/-- 2^32, the modulus of 32-bit word arithmetic. -/
def w32 : Nat := 4294967296

/-- Truncate to a 32-bit word. -/
def trunc32 (x : Nat) : Nat := x % w32

/-- 32-bit right rotation. -/
def rotr32 (x n : Nat) : Nat :=
  trunc32 (Nat.lor (Nat.shiftRight x n) (Nat.shiftLeft x (32 - n)))

/-- 32-bit XOR. -/
def xor32 (a b : Nat) : Nat := Nat.xor a b

/-- 32-bit AND. -/
def and32 (a b : Nat) : Nat := Nat.land a b

/-- 32-bit complement. -/
def not32 (a : Nat) : Nat := w32 - 1 - a % w32

/-- SHA-256 round constants (FIPS 180-4 `K`, written in decimal). -/
def sha256K : List Nat :=
  [1116352408, 1899447441, 3049323471, 3921009573, 961987163,
   1508970993, 2453635748, 2870763221, 3624381080, 310598401,
   607225278, 1426881987, 1925078388, 2162078206, 2614888103,
   3248222580, 3835390401, 4022224774, 264347078, 604807628,
   770255983, 1249150122, 1555081692, 1996064986, 2554220882,
   2821834349, 2952996808, 3210313671, 3336571891, 3584528711,
   113926993, 338241895, 666307205, 773529912, 1294757372,
   1396182291, 1695183700, 1986661051, 2177026350, 2456956037,
   2730485921, 2820302411, 3259730800, 3345764771, 3516065817,
   3600352804, 4094571909, 275423344, 430227734, 506948616,
   659060556, 883997877, 958139571, 1322822218, 1537002063,
   1747873779, 1955562222, 2024104815, 2227730452, 2361852424,
   2428436474, 2756734187, 3204031479, 3329325298]

/-- SHA-256 initial hash state (FIPS 180-4 `H0`, written in decimal). -/
def sha256Init : List Nat :=
  [1779033703, 3144134277, 1013904242, 2773480762,
   1359893119, 2600822924, 528734635, 1541459225]

/-- Big-endian 32-bit word from four bytes. -/
def wordOfBytes (b0 b1 b2 b3 : Nat) : Nat :=
  ((b0 * 256 + b1) * 256 + b2) * 256 + b3

/-- Four big-endian bytes of a 32-bit word. -/
def bytesOfWord (x : Nat) : Bytes :=
  [x / 16777216 % 256, x / 65536 % 256, x / 256 % 256, x % 256]

/-- Parse a 64-byte block into its 16 big-endian words. -/
def blockWords : Bytes → List Nat
  | b0 :: b1 :: b2 :: b3 :: rest => wordOfBytes b0 b1 b2 b3 :: blockWords rest
  | _ => []

/-- One step of the SHA-256 message-schedule extension: the next word from
the last sixteen already produced. -/
def nextScheduleWord (ws : List Nat) : Nat :=
  let n := ws.length
  let g := fun i => ws.getD i 0
  let w15 := g (n - 15)
  let w2 := g (n - 2)
  let w16 := g (n - 16)
  let w7 := g (n - 7)
  let s0 := xor32 (xor32 (rotr32 w15 7) (rotr32 w15 18)) (Nat.shiftRight w15 3)
  let s1 := xor32 (xor32 (rotr32 w2 17) (rotr32 w2 19)) (Nat.shiftRight w2 10)
  trunc32 (w16 + s0 + w7 + s1)

/-- Extend the 16 block words to the 64-word message schedule. -/
def extendSchedule : List Nat → Nat → List Nat
  | ws, 0 => ws
  | ws, n + 1 => extendSchedule (ws ++ [nextScheduleWord ws]) n

/-- One SHA-256 compression round. -/
def sha256Round (st : List Nat) (kw : Nat × Nat) : List Nat :=
  match st with
  | [a, b, c, d, e, f, g, h] =>
    let S1 := xor32 (xor32 (rotr32 e 6) (rotr32 e 11)) (rotr32 e 25)
    let ch := xor32 (and32 e f) (and32 (not32 e) g)
    let t1 := trunc32 (h + S1 + ch + kw.1 + kw.2)
    let S0 := xor32 (xor32 (rotr32 a 2) (rotr32 a 13)) (rotr32 a 22)
    let maj := xor32 (xor32 (and32 a b) (and32 a c)) (and32 b c)
    let t2 := trunc32 (S0 + maj)
    [trunc32 (t1 + t2), a, b, c, trunc32 (d + t1), e, f, g]
  | st => st

/-- Compress one 64-byte block into the running hash state. -/
def sha256Block (h : List Nat) (block : Bytes) : List Nat :=
  let ws := extendSchedule (blockWords block) 48
  let st := (sha256K.zip ws).foldl (fun s kw => sha256Round s kw) h
  (h.zip st).map fun p => trunc32 (p.1 + p.2)

/-- SHA-256 padding: append 0x80, zero bytes, and the 64-bit big-endian bit
length, reaching a multiple of 64 bytes. -/
def sha256Pad (msg : Bytes) : Bytes :=
  let len := msg.length
  let zeros := (64 + 55 - len % 64) % 64
  let bitLen := len * 8
  msg ++ [128] ++ List.replicate zeros 0 ++
    (bytesOfWord (bitLen / w32) ++ bytesOfWord (bitLen % w32))

/-- The full SHA-256 digest (32 bytes) of a byte sequence. -/
def sha256 (msg : Bytes) : Bytes :=
  let final := ((sha256Pad msg).toChunks 64).foldl sha256Block sha256Init
  final.foldr (fun wrd acc => bytesOfWord wrd ++ acc) []

/-! ## HMAC (crypto/hmac)

`hmac.New(sha256.New, key)` followed by a single `Write` and `Sum`,
modelled from Go's `crypto/hmac`. -/

/-- HMAC key normalisation: hash keys longer than the 64-byte block size,
then right-pad with zero bytes to the block size. -/
def hmacNormKey (key : Bytes) : Bytes :=
  let k := if 64 < key.length then sha256 key else key
  k ++ List.replicate (64 - k.length) 0

/-- HMAC-SHA256 digest of `msg` under `key`. -/
def hmacSha256 (key msg : Bytes) : Bytes :=
  let k := hmacNormKey key
  let ipad := k.map (fun b => Nat.xor b 0x36)
  let opad := k.map (fun b => Nat.xor b 0x5c)
  sha256 (opad ++ sha256 (ipad ++ msg))

/-! ## Base64 (encoding/base64, StdEncoding)

`base64.StdEncoding.EncodeToString`, producing the ASCII bytes of the
standard-alphabet, padded base64 encoding. -/

/-- The standard base64 alphabet as ASCII byte values. -/
def b64Alphabet : List Nat :=
  [65, 66, 67, 68, 69, 70, 71, 72, 73, 74, 75, 76, 77, 78, 79, 80, 81, 82,
   83, 84, 85, 86, 87, 88, 89, 90, 97, 98, 99, 100, 101, 102, 103, 104, 105,
   106, 107, 108, 109, 110, 111, 112, 113, 114, 115, 116, 117, 118, 119, 120,
   121, 122, 48, 49, 50, 51, 52, 53, 54, 55, 56, 57, 43, 47]

/-- The alphabet byte for a 6-bit value. -/
def b64Char (n : Nat) : Nat := b64Alphabet.getD (n % 64) 65

/-- Standard padded base64 encoding of a byte sequence, as ASCII bytes
(61 is the pad character). -/
def base64Encode : Bytes → Bytes
  | b0 :: b1 :: b2 :: rest =>
    let n := (b0 * 256 + b1) * 256 + b2
    b64Char (n / 262144) :: b64Char (n / 4096) :: b64Char (n / 64) ::
      b64Char n :: base64Encode rest
  | [b0, b1] =>
    let n := (b0 * 256 + b1) * 4
    [b64Char (n / 4096), b64Char (n / 64), b64Char n, 61]
  | [b0] =>
    let n := b0 * 16
    [b64Char (n / 64), b64Char n, 61, 61]
  | [] => []

/-! ## JSON serialization of a `map[string]string` (encoding/json)

`json.Marshal` of a Go `map[string]string`: keys sorted bytewise, each key
and value written as a JSON string with Go's escaping (`"`, `\`, newline,
carriage return, tab, other control bytes as `\u00XX`, and the
HTML-sensitive bytes `<`, `>`, `&` as `\u00XX` as well).  Bytes at or above
0x20 outside those classes pass through; the model assumes valid UTF-8
input, where Go also passes such bytes through. -/

/-- Lowercase hex digit byte of a value below 16. -/
def hexDigit (n : Nat) : Nat := if n < 10 then 48 + n else 87 + n

/-- `\u00XX` escape sequence for a byte. -/
def uEscape (b : Nat) : Bytes := [92, 117, 48, 48, hexDigit (b / 16), hexDigit (b % 16)]

/-- Go JSON string escaping of one byte. -/
def jsonEscapeByte (b : Nat) : Bytes :=
  if b = 34 then [92, 34]
  else if b = 92 then [92, 92]
  else if b = 10 then [92, 110]
  else if b = 13 then [92, 114]
  else if b = 9 then [92, 116]
  else if b < 32 then uEscape b
  else if b = 60 || b = 62 || b = 38 then uEscape b
  else [b]

/-- A JSON string literal (quotes plus escaped content) for a byte string. -/
def jsonStringEnc (s : Bytes) : Bytes :=
  34 :: (s.flatMap jsonEscapeByte ++ [34])

/-- Bytewise lexicographic strict order on byte strings, the order
`sort.Strings` uses on Go map keys. -/
def bytesLt : Bytes → Bytes → Bool
  | _, [] => false
  | [], _ :: _ => true
  | a :: as, b :: bs => if a < b then true else if b < a then false else bytesLt as bs

/-- Insert one key/value pair into a key-sorted association list. -/
def insertByKey (p : Bytes × Bytes) : List (Bytes × Bytes) → List (Bytes × Bytes)
  | [] => [p]
  | q :: rest => if bytesLt q.1 p.1 then q :: insertByKey p rest else p :: q :: rest

/-- Sort an association list by key, bytewise. -/
def sortByKey : List (Bytes × Bytes) → List (Bytes × Bytes)
  | [] => []
  | p :: rest => insertByKey p (sortByKey rest)

/-- Comma-join encoded object members. -/
def joinComma : List Bytes → Bytes
  | [] => []
  | [x] => x
  | x :: rest => x ++ 44 :: joinComma rest

/-- `json.Marshal` of a `map[string]string` (given as an association list
of byte strings; a Go map has distinct keys): a JSON object with keys
sorted bytewise. -/
def jsonEncodeStringMap (m : List (Bytes × Bytes)) : Bytes :=
  let entries := (sortByKey m).map fun p => jsonStringEnc p.1 ++ 58 :: jsonStringEnc p.2
  123 :: (joinComma entries ++ [125])

/-! ## `fmt.Sprintf` with no operands

`GenerateScopedSearchKey` passes its concatenated result through
`fmt.Sprintf` as the format string, with no operands.  Go then copies
bytes verbatim, except for directives: `%%` emits `%`, a `%` ending the
string emits `%!(NOVERB)`, and any other directive `%<flags><verb>` emits
`%!<verb>(MISSING)` because no operand is available. -/

/-- Bytes `fmt` accepts between `%` and the verb: flags `# + - space .`
and width/precision digits. -/
def isFmtFlag (b : Nat) : Bool :=
  b = 35 || b = 43 || b = 45 || b = 32 || b = 46 || (48 ≤ b && b ≤ 57)

/-- The `%!(NOVERB)` bytes. -/
def noVerbBytes : Bytes := [37, 33, 40, 78, 79, 86, 69, 82, 66, 41]

/-- The `%!<verb>(MISSING)` bytes. -/
def missingVerbBytes (verb : Nat) : Bytes :=
  [37, 33, verb, 40, 77, 73, 83, 83, 73, 78, 71, 41]

/-- The copying scan of `fmt.Sprintf` with no operands.  `inDirective`
is true while flags and width bytes of a `%` directive are being
consumed; reaching the verb emits `%` for `%%` and `%!<verb>(MISSING)`
otherwise, and a format string ending inside a directive emits
`%!(NOVERB)`. -/
def sprintfGo (inDirective : Bool) : Bytes → Bytes
  | [] => if inDirective then noVerbBytes else []
  | b :: rest =>
    if inDirective then
      if isFmtFlag b then sprintfGo true rest
      else if b = 37 then 37 :: sprintfGo false rest
      else missingVerbBytes b ++ sprintfGo false rest
    else
      if b = 37 then sprintfGo true rest
      else b :: sprintfGo false rest

/-- `fmt.Sprintf` applied to a format string with no operands. -/
def sprintfNoArgs (l : Bytes) : Bytes := sprintfGo false l

/-! ## The scoped search key generator (apikey.go) -/

/-- `GenerateScopedSearchKey` from apikey.go.  `none` models the runtime
panic of `[]byte(searchKey)[:4]` on a parent key shorter than 4 bytes.
The branch returning `""` when `h.Write` errors has no image in the model:
a `crypto/sha256` hash `Write` never returns an error, so the write here
is total. -/
def GenerateScopedSearchKey (searchKey : Bytes) (options : List (Bytes × Bytes)) :
    Option Bytes :=
  let j := jsonEncodeStringMap options
  if searchKey.length < 4 then none
  else
    let keyPrefix := searchKey.take 4
    let digest := base64Encode (hmacSha256 searchKey j)
    let rawScopedKey := sprintfNoArgs (digest ++ keyPrefix ++ j)
    some (base64Encode rawScopedKey)

/-- The token as §4.4 of the spec describes it, for comparison with the
code: base64 of the plain concatenation (digest base64) ++ (4-byte key
prefix) ++ (raw JSON bytes of the parameter mapping). -/
def scopedSearchKeySpec (searchKey : Bytes) (options : List (Bytes × Bytes)) : Bytes :=
  let j := jsonEncodeStringMap options
  base64Encode (base64Encode (hmacSha256 searchKey j) ++ searchKey.take 4 ++ j)

/-! ## JSON values and response bodies

Response bodies reach the operations through `json.Decoder.Decode`; we
model a body by the JSON value its bytes parse to (`none` when the bytes
are not valid JSON, e.g. an empty body).  Go decodes JSON numbers in the
fields used here into integer fields, so numbers are modelled as `Int`. -/

inductive Json where
  | null
  | bool (b : Bool)
  | num (n : Int)
  | str (s : String)
  | arr (elems : List Json)
  | obj (members : List (String × Json))

/-- The last binding of a key among the members of a JSON object — the
value a Go map or struct field holds after sequential decoding when keys
repeat. -/
def getFieldLast (ms : List (String × Json)) (k : String) : Option Json :=
  ms.foldl (fun acc p => if p.1 = k then some p.2 else acc) none

/-- Decode a string field of an object: missing or null leaves the zero
value `""`, a JSON string is taken, anything else is a type error. -/
def decStringField (ms : List (String × Json)) (k : String) : Except String String :=
  match getFieldLast ms k with
  | none => .ok ""
  | some .null => .ok ""
  | some (.str s) => .ok s
  | some _ => .error ("cannot unmarshal into string field " ++ k)

/-- Decode an integer field of an object: missing or null leaves the zero
value, a number is taken, anything else is a type error. -/
def decIntField (ms : List (String × Json)) (k : String) : Except String Int :=
  match getFieldLast ms k with
  | none => .ok 0
  | some .null => .ok 0
  | some (.num n) => .ok n
  | some _ => .error ("cannot unmarshal into int field " ++ k)

/-- Decode a boolean field of an object: missing or null leaves `false`,
a JSON boolean is taken, anything else is a type error. -/
def decBoolField (ms : List (String × Json)) (k : String) : Except String Bool :=
  match getFieldLast ms k with
  | none => .ok false
  | some .null => .ok false
  | some (.bool b) => .ok b
  | some _ => .error ("cannot unmarshal into bool field " ++ k)

/-! ## Entity types (collections.go, apikey.go)

Field names follow the Go structs.  Go slice fields of pointer type are
modelled as lists; a nil slice and an empty slice are both `[]`. -/

/-- `CollectionField` from collections.go (`Type'` stands for the Go
field `Type`, which is a reserved word here). -/
structure CollectionField where
  Name : String
  Type' : String
  Facet : Bool
deriving DecidableEq

/-- `CollectionSchema` from collections.go. -/
structure CollectionSchema where
  Name : String
  Fields : List CollectionField
  DefaultSortingField : String
deriving DecidableEq

/-- `Collection` from collections.go: the schema plus server counters. -/
structure Collection extends CollectionSchema where
  NumDocuments : Int
  CreatedAt : Int
deriving DecidableEq

/-- `OverrideRule` from collections.go. -/
structure OverrideRule where
  Match : String
  Query : String
deriving DecidableEq

/-- `OverrideDocID` from collections.go; `Position *int` is an optional
integer. -/
structure OverrideDocID where
  ID : String
  Position : Option Int
deriving DecidableEq

/-- `Override` from collections.go. -/
structure Override where
  ID : String
  Excludes : List OverrideDocID
  Includes : List OverrideDocID
  Rule : OverrideRule
deriving DecidableEq

/-- `APIKey` from apikey.go (`APIAction` is a string). -/
structure APIKey where
  Actions : List String
  Collections : List String
  Description : String
  ID : Int
  Value : String
deriving DecidableEq

/-- Modelled from the spec: `APIError` (declared in the client file that
is not under src/; src only constructs it with a `Message` field and
returns it as an error value): the generic error payload `{message}`. -/
structure APIError where
  Message : String
deriving DecidableEq

/-- Modelled from the spec: `APIResponse` (declared in the client file
that is not under src/; src only reads its `Message` field), the decoded
shape of a 400 response body in `CreateCollection`. -/
structure APIResponse where
  Message : String
deriving DecidableEq

/-! ## Decoding entities from JSON -/

/-- Decode `CollectionField` from a JSON value (a null array element
leaves the zero struct, as Go does). -/
def decodeCollectionField : Json → Except String CollectionField
  | .null => .ok ⟨"", "", false⟩
  | .obj ms => do
    let name ← decStringField ms "name"
    let ty ← decStringField ms "type"
    let facet ← decBoolField ms "facet"
    .ok ⟨name, ty, facet⟩
  | _ => .error "cannot unmarshal into CollectionField"

/-- Decode a list field whose elements decode by `dec`: missing or null
leaves the nil slice, an array decodes elementwise, anything else is a
type error. -/
def decListField (dec : Json → Except String α) (ms : List (String × Json))
    (k : String) : Except String (List α) :=
  match getFieldLast ms k with
  | none => .ok []
  | some .null => .ok []
  | some (.arr xs) => xs.mapM dec
  | some _ => .error ("cannot unmarshal into slice field " ++ k)

/-- Decode `Collection` from a response body. -/
def decodeCollection : Option Json → Except String Collection
  | none => .error "invalid JSON body"
  | some .null => .ok ⟨⟨"", [], ""⟩, 0, 0⟩
  | some (.obj ms) => do
    let name ← decStringField ms "name"
    let fields ← decListField decodeCollectionField ms "fields"
    let dsf ← decStringField ms "default_sorting_field"
    let numDocs ← decIntField ms "num_documents"
    let createdAt ← decIntField ms "created_at"
    .ok ⟨⟨name, fields, dsf⟩, numDocs, createdAt⟩
  | some _ => .error "cannot unmarshal into Collection"

/-- Decode the `{message}` payload shape shared by `APIError` and
`APIResponse`. -/
def decodeMessagePayload : Option Json → Except String String
  | none => .error "invalid JSON body"
  | some .null => .ok ""
  | some (.obj ms) => decStringField ms "message"
  | some _ => .error "cannot unmarshal into message payload"

/-- Decode `APIError` from a response body. -/
def decodeAPIError (b : Option Json) : Except String APIError :=
  (decodeMessagePayload b).map APIError.mk

/-- Decode `APIResponse` from a response body. -/
def decodeAPIResponse (b : Option Json) : Except String APIResponse :=
  (decodeMessagePayload b).map APIResponse.mk

/-- Decode `OverrideDocID` from a JSON value. -/
def decodeOverrideDocID : Json → Except String OverrideDocID
  | .null => .ok ⟨"", none⟩
  | .obj ms => do
    let id ← decStringField ms "id"
    let pos ← match getFieldLast ms "position" with
      | none => pure none
      | some .null => pure none
      | some (.num n) => pure (some n)
      | some _ => .error "cannot unmarshal into position"
    .ok ⟨id, pos⟩
  | _ => .error "cannot unmarshal into OverrideDocID"

/-- Decode `Override` from a JSON value. -/
def decodeOverride : Json → Except String Override
  | .null => .ok ⟨"", [], [], ⟨"", ""⟩⟩
  | .obj ms => do
    let id ← decStringField ms "id"
    let excludes ← decListField decodeOverrideDocID ms "excludes"
    let includes ← decListField decodeOverrideDocID ms "includes"
    let rule ← match getFieldLast ms "rule" with
      | none => pure (⟨"", ""⟩ : OverrideRule)
      | some .null => pure (⟨"", ""⟩ : OverrideRule)
      | some (.obj rms) => do
        let mtch ← decStringField rms "match"
        let q ← decStringField rms "query"
        pure (⟨mtch, q⟩ : OverrideRule)
      | some _ => .error "cannot unmarshal into OverrideRule"
    .ok ⟨id, excludes, includes, rule⟩
  | _ => .error "cannot unmarshal into Override"

/-- Decode the `map[string][]*Override` body of `RetrieveOverrides`;
a null body leaves the nil map, every member value must be a (possibly
null) array of overrides. -/
def decodeOverridesMap : Option Json → Except String (List (String × List Override))
  | none => .error "invalid JSON body"
  | some .null => .ok []
  | some (.obj ms) => ms.mapM fun p => do
    let v ← match p.2 with
      | .null => pure []
      | .arr xs => xs.mapM decodeOverride
      | _ => .error "cannot unmarshal into override list"
    pure (p.1, v)
  | some _ => .error "cannot unmarshal into overrides map"

/-- Lookup in the decoded map: the last binding wins, as it does in the
Go map the decoder fills sequentially. -/
def lookupLast (m : List (String × α)) (k : String) : Option α :=
  m.foldl (fun acc p => if p.1 = k then some p.2 else acc) none

/-- Decode `APIKey` from a response body. -/
def decodeAPIKey : Option Json → Except String APIKey
  | none => .error "invalid JSON body"
  | some .null => .ok ⟨[], [], "", 0, ""⟩
  | some (.obj ms) => do
    let actions ← decListField (fun j => match j with
      | .null => .ok ""
      | .str s => .ok s
      | _ => .error "cannot unmarshal into APIAction") ms "actions"
    let collections ← decListField (fun j => match j with
      | .null => .ok ""
      | .str s => .ok s
      | _ => .error "cannot unmarshal into string") ms "collections"
    let description ← decStringField ms "description"
    let id ← decIntField ms "id"
    let value ← decStringField ms "value"
    .ok ⟨actions, collections, description, id, value⟩
  | some _ => .error "cannot unmarshal into APIKey"

/-! ## Errors and the transport

Modelled from the spec: the sentinel error values (`ErrUnauthorized`,
`ErrCollectionNotFound`, `ErrCollectionNameRequired`,
`ErrCollectionFieldsRequired`, `ErrCollectionDuplicate`) are declared in
the client file that is not under src/; src compares against them by
identity, and the spec (§7) fixes the taxonomy.  The remaining
constructors carry the other error values the operations build. -/

/-- The error values an operation can return. -/
inductive GoErr where
  /-- `ErrCollectionNameRequired`. -/
  | collectionNameRequired
  /-- `ErrCollectionFieldsRequired`. -/
  | collectionFieldsRequired
  /-- `ErrCollectionDuplicate`. -/
  | collectionDuplicate
  /-- `ErrCollectionNotFound`. -/
  | collectionNotFound
  /-- `ErrUnauthorized`. -/
  | unauthorized
  /-- An `APIError` value returned as the error. -/
  | apiErr (message : String)
  /-- An `errors.New` error. -/
  | newErr (message : String)
  /-- A `json` decode error propagated to the caller. -/
  | decodeErr (message : String)
  /-- A transport-level failure passed through verbatim. -/
  | transportErr (message : String)
deriving DecidableEq

/-- Operation results are `Except` values; equality of results is
decidable when it is for both components. -/
instance instDecidableEqExcept {ε α : Type} [DecidableEq ε] [DecidableEq α] :
    DecidableEq (Except ε α) := fun x y =>
  match x, y with
  | .error a, .error b =>
    if h : a = b then .isTrue (by rw [h]) else .isFalse (by simp [h])
  | .error a, .ok b => .isFalse (by simp)
  | .ok a, .error b => .isFalse (by simp)
  | .ok a, .ok b =>
    if h : a = b then .isTrue (by rw [h]) else .isFalse (by simp [h])

/-- A response from the service: status code plus parsed body. -/
structure Response where
  statusCode : Nat
  body : Option Json

/-- Modelled from the spec: `apiCall` (client.go, not under src/) issues
one request and hands back the transport outcome unchanged — either a
transport error or the response.  Each operation consumes exactly this
one round-trip outcome. -/
abbrev Transport := Except String Response

/-! ## The operations (collections.go, apikey.go)

Each Go method is a function of its parameters and of the transport
outcome of the single HTTP call it makes.  `CreateCollection` also
returns whether the HTTP call was issued at all (its client-side
validation returns before calling). -/

/-- `CreateCollection` from collections.go.  The second component is
true iff the HTTP call was issued. -/
def CreateCollection (collectionSchema : CollectionSchema) (t : Transport) :
    Except GoErr Collection × Bool :=
  if collectionSchema.Name = "" then (.error .collectionNameRequired, false)
  else if collectionSchema.Fields = [] then (.error .collectionFieldsRequired, false)
  else
    match t with
    | .error e => (.error (.transportErr e), true)
    | .ok resp =>
      if resp.statusCode = 409 then (.error .collectionDuplicate, true)
      else if resp.statusCode = 401 then (.error .unauthorized, true)
      else if resp.statusCode = 400 then
        match decodeAPIResponse resp.body with
        | .error m => (.error (.decodeErr m), true)
        | .ok apiResponse => (.error (.newErr apiResponse.Message), true)
      else
        match decodeCollection resp.body with
        | .error m => (.error (.decodeErr m), true)
        | .ok collectionResponse => (.ok collectionResponse, true)

/-- `RetrieveCollections` from collections.go. -/
def RetrieveCollections (t : Transport) : Except GoErr (List Collection) :=
  match t with
  | .error e => .error (.transportErr e)
  | .ok resp =>
    if resp.statusCode = 401 then .error .unauthorized
    else
      match resp.body with
      | none => .error (.decodeErr "invalid JSON body")
      | some .null => .ok []
      | some (.arr xs) =>
        match xs.mapM (fun j => decodeCollection (some j)) with
        | .error m => .error (.decodeErr m)
        | .ok cs => .ok cs
      | some _ => .error (.decodeErr "cannot unmarshal into Collection slice")

/-- `RetrieveCollection` from collections.go. -/
def RetrieveCollection (collectionName : String) (t : Transport) :
    Except GoErr Collection :=
  match t with
  | .error e => .error (.transportErr e)
  | .ok resp =>
    if resp.statusCode = 404 then .error .collectionNotFound
    else if resp.statusCode = 401 then .error .unauthorized
    else
      match decodeCollection resp.body with
      | .error m => .error (.decodeErr m)
      | .ok collection => .ok collection

/-- `DeleteCollection` from collections.go. -/
def DeleteCollection (collectionName : String) (t : Transport) :
    Except GoErr Collection :=
  match t with
  | .error e => .error (.transportErr e)
  | .ok resp =>
    if resp.statusCode = 404 then .error .collectionNotFound
    else if resp.statusCode = 401 then .error .unauthorized
    else
      match decodeCollection resp.body with
      | .error m => .error (.decodeErr m)
      | .ok collection => .ok collection

/-- `OverrideCollection` from collections.go.  The `json.Marshal` of the
override configuration cannot fail for this type, so the marshal-error
branch has no image; the response body is never read. -/
def OverrideCollection (collectionName : String) (overrideCfg : Override)
    (t : Transport) : Except GoErr Unit :=
  match t with
  | .error e => .error (.transportErr e)
  | .ok resp =>
    if resp.statusCode = 404 then .error .collectionNotFound
    else if resp.statusCode = 401 then .error .unauthorized
    else .ok ()

/-- `RetrieveOverrides` from collections.go. -/
def RetrieveOverrides (collectionName : String) (t : Transport) :
    Except GoErr (List Override) :=
  match t with
  | .error e => .error (.transportErr e)
  | .ok resp =>
    if resp.statusCode = 404 then .error .collectionNotFound
    else if resp.statusCode = 401 then .error .unauthorized
    else
      match decodeOverridesMap resp.body with
      | .error m => .error (.decodeErr m)
      | .ok resBody =>
        match lookupLast resBody "overrides" with
        | some overrides => .ok overrides
        | none => .error (.newErr "response did not return a list of overrides")

/-- `DeleteOverride` from collections.go; the response body is never
read. -/
def DeleteOverride (collectionName : String) (id : String) (t : Transport) :
    Except GoErr Unit :=
  match t with
  | .error e => .error (.transportErr e)
  | .ok resp =>
    if resp.statusCode = 404 then .error .collectionNotFound
    else if resp.statusCode = 401 then .error .unauthorized
    else .ok ()

/-- `CreateAPIKey` from apikey.go (the description, actions and
collections only shape the request body). -/
def CreateAPIKey (description : String) (actions : List String)
    (collections : List String) (t : Transport) : Except GoErr APIKey :=
  match t with
  | .error e => .error (.transportErr e)
  | .ok res =>
    if res.statusCode = 400 then
      match decodeAPIError res.body with
      | .error _ => .error (.apiErr "bad request")
      | .ok apiError => .error (.apiErr apiError.Message)
    else if res.statusCode = 401 then .error .unauthorized
    else
      match decodeAPIKey res.body with
      | .error m => .error (.decodeErr m)
      | .ok apiKey => .ok apiKey

/-- `DeleteAPIKey` from apikey.go; only 401 is mapped, the response body
is never read. -/
def DeleteAPIKey (id : Int) (t : Transport) : Except GoErr Unit :=
  match t with
  | .error e => .error (.transportErr e)
  | .ok res =>
    if res.statusCode = 401 then .error .unauthorized
    else .ok ()

namespace PackageMain

/-- The `package main` variant of `RetrieveCollection` (the third file in
apikey.go's compilation unit): it maps 404 and then decodes, with no 401
branch. -/
def RetrieveCollection (collectionName : String) (t : Transport) :
    Except GoErr Collection :=
  match t with
  | .error e => .error (.transportErr e)
  | .ok resp =>
    if resp.statusCode = 404 then .error .collectionNotFound
    else
      match decodeCollection resp.body with
      | .error m => .error (.decodeErr m)
      | .ok collection => .ok collection

end PackageMain

/-! ## Helper lemmas -/

/-- The Sprintf scan emits output even when the format string ends inside
a directive. -/
theorem sprintfGo_true_ne_nil (l : Bytes) : sprintfGo true l ≠ [] := by
  induction l with
  | nil => simp [sprintfGo, noVerbBytes]
  | cons b rest ih =>
    simp only [sprintfGo]
    split_ifs <;> first | exact ih | simp [missingVerbBytes]

/-- The Sprintf scan of a nonempty format string is nonempty. -/
theorem sprintfGo_false_ne_nil (l : Bytes) (h : l ≠ []) : sprintfGo false l ≠ [] := by
  match l with
  | [] => exact absurd rfl h
  | b :: rest =>
    simp only [sprintfGo]
    split_ifs <;>
      first
      | exact sprintfGo_true_ne_nil rest
      | simp_all [missingVerbBytes]

/-- Base64 of a nonempty byte sequence is nonempty. -/
theorem base64Encode_ne_nil (l : Bytes) (h : l ≠ []) : base64Encode l ≠ [] := by
  match l with
  | [] => exact absurd rfl h
  | [b0] => simp [base64Encode]
  | [b0, b1] => simp [base64Encode]
  | b0 :: b1 :: b2 :: rest => simp [base64Encode]

/-- The JSON serialization of a parameter mapping is never empty (it is
at least the two braces). -/
theorem jsonEncodeStringMap_ne_nil (m : List (Bytes × Bytes)) :
    jsonEncodeStringMap m ≠ [] := by
  simp [jsonEncodeStringMap]

/-! ## Claims about the scoped search key generator -/

set_option maxRecDepth 400000 in
/-- C1: the claim says the returned token is the base64 of the
concatenation (digest base64) ++ (first 4 key bytes) ++ (raw JSON bytes),
for every parent key of at least 4 bytes and every mapping.  The code
instead runs the concatenation through `fmt.Sprintf` as a format string
with no operands, which mangles `%` directives inside the JSON: at parent
key `abcd1234` and mapping `q ↦ %d` the token the code returns (first
conjunct, evaluating the code) is not the base64 of the specified
concatenation (third conjunct), because the embedded JSON's `%d` became
`%!d(MISSING)`. -/
theorem generateScopedSearchKey_sprintf_mangles_c1 :
    GenerateScopedSearchKey [97, 98, 99, 100, 49, 50, 51, 52] [([113], [37, 100])] =
      some [100, 50, 53, 74, 90, 86, 74, 72, 90, 71, 48, 119, 83, 87, 70, 71,
        100, 67, 57, 87, 97, 109, 74, 109, 78, 51, 104, 84, 82, 50, 77, 114,
        101, 86, 90, 108, 77, 108, 90, 111, 100, 87, 57, 52, 90, 107, 82, 80,
        98, 83, 116, 109, 98, 85, 78, 90, 85, 84, 49, 104, 89, 109, 78, 107,
        101, 121, 74, 120, 73, 106, 111, 105, 74, 83, 70, 107, 75, 69, 49, 74,
        85, 49, 78, 74, 84, 107, 99, 112, 73, 110, 48, 61] ∧
    scopedSearchKeySpec [97, 98, 99, 100, 49, 50, 51, 52] [([113], [37, 100])] =
      [100, 50, 53, 74, 90, 86, 74, 72, 90, 71, 48, 119, 83, 87, 70, 71,
       100, 67, 57, 87, 97, 109, 74, 109, 78, 51, 104, 84, 82, 50, 77, 114,
       101, 86, 90, 108, 77, 108, 90, 111, 100, 87, 57, 52, 90, 107, 82, 80,
       98, 83, 116, 109, 98, 85, 78, 90, 85, 84, 49, 104, 89, 109, 78, 107,
       101, 121, 74, 120, 73, 106, 111, 105, 74, 87, 81, 105, 102, 81, 61, 61] ∧
    GenerateScopedSearchKey [97, 98, 99, 100, 49, 50, 51, 52] [([113], [37, 100])] ≠
      some (scopedSearchKeySpec [97, 98, 99, 100, 49, 50, 51, 52] [([113], [37, 100])]) := by
  refine ⟨by decide, by decide, ?_⟩
  decide

/-- C2: with a parent key of at least 4 bytes the generator is total and
never returns the empty string (the HMAC-write failure branch has no
image, a hash `Write` being infallible); with a parent key shorter than
4 bytes the 4-byte prefix slice is out of bounds and the generator fails
at runtime (`none`). -/
theorem generateScopedSearchKey_safety_c2 (searchKey : Bytes)
    (options : List (Bytes × Bytes)) :
    (4 ≤ searchKey.length →
      ∃ s, GenerateScopedSearchKey searchKey options = some s ∧ s ≠ []) ∧
    (searchKey.length < 4 → GenerateScopedSearchKey searchKey options = none) := by
  constructor
  · intro h
    have hlt : ¬ searchKey.length < 4 := by omega
    refine ⟨base64Encode (sprintfNoArgs
        (base64Encode (hmacSha256 searchKey (jsonEncodeStringMap options)) ++
          List.take 4 searchKey ++ jsonEncodeStringMap options)), ?_, ?_⟩
    · simp only [GenerateScopedSearchKey, if_neg hlt, sprintfNoArgs]
    · apply base64Encode_ne_nil
      apply sprintfGo_false_ne_nil
      simp [List.append_eq_nil, jsonEncodeStringMap]
  · intro h
    simp only [GenerateScopedSearchKey, if_pos h]

/-- Witness for C2 at a 4-byte and a 1-byte parent key. -/
theorem generateScopedSearchKey_safety_c2_witness :
    (4 ≤ ([97, 98, 99, 100] : Bytes).length ∧
      ∃ s, GenerateScopedSearchKey [97, 98, 99, 100] [] = some s ∧ s ≠ []) ∧
    (([97] : Bytes).length < 4 ∧ GenerateScopedSearchKey [97] [] = none) :=
  ⟨⟨by decide, (generateScopedSearchKey_safety_c2 [97, 98, 99, 100] []).1 (by decide)⟩,
   ⟨by decide, (generateScopedSearchKey_safety_c2 [97] []).2 (by decide)⟩⟩

/-- C3: the generator is deterministic — with the same parent key and
parameter mappings whose JSON serializations are byte-identical, the
tokens are equal. -/
theorem generateScopedSearchKey_deterministic_c3 (searchKey : Bytes)
    (o1 o2 : List (Bytes × Bytes))
    (h : jsonEncodeStringMap o1 = jsonEncodeStringMap o2) :
    GenerateScopedSearchKey searchKey o1 = GenerateScopedSearchKey searchKey o2 := by
  simp only [GenerateScopedSearchKey, h]

/-- Witness for C3: the same two-entry mapping listed in either order
serializes identically, so the tokens agree. -/
theorem generateScopedSearchKey_deterministic_c3_witness :
    jsonEncodeStringMap [([97], [49]), ([98], [50])] =
      jsonEncodeStringMap [([98], [50]), ([97], [49])] ∧
    GenerateScopedSearchKey [97, 98, 99, 100] [([97], [49]), ([98], [50])] =
      GenerateScopedSearchKey [97, 98, 99, 100] [([98], [50]), ([97], [49])] :=
  ⟨by decide,
   generateScopedSearchKey_deterministic_c3 [97, 98, 99, 100] _ _ (by decide)⟩

/-! ## Claims about the HTTP operations -/

/-- C4, counterexample: the claim says both 400 handlers fall back to a
"bad request" error when the body fails to decode; but `CreateCollection`
on a 400 response with an undecodable body returns the decode error
itself, which is neither the `APIError`-shaped nor the `errors.New`
fallback the claim requires. -/
theorem createCollection_400_no_fallback_c4 :
    (CreateCollection ⟨"companies", [⟨"name", "string", false⟩], ""⟩
        (.ok ⟨400, none⟩)).1 = .error (.decodeErr "invalid JSON body") ∧
    GoErr.decodeErr "invalid JSON body" ≠ GoErr.apiErr "bad request" ∧
    GoErr.decodeErr "invalid JSON body" ≠ GoErr.newErr "bad request" := by
  refine ⟨by decide, by decide, by decide⟩

/-- C4, amended: on a 400 response, `CreateAPIKey` decodes the body as
`APIError` and returns the fallback `APIError` "bad request" when
decoding fails, otherwise the decoded message; `CreateCollection` (with
a schema passing validation) decodes the body and propagates a decode
failure as the error itself — no fallback — otherwise the decoded
message. -/
theorem badRequest_mapping_c4 (description : String)
    (actions collections : List String) (schema : CollectionSchema)
    (hn : schema.Name ≠ "") (hf : schema.Fields ≠ []) (b : Option Json) :
    CreateAPIKey description actions collections (.ok ⟨400, b⟩) =
      .error (.apiErr (match decodeAPIError b with
        | .error _ => "bad request"
        | .ok e => e.Message)) ∧
    (CreateCollection schema (.ok ⟨400, b⟩)).1 =
      (match decodeAPIResponse b with
        | .error m => .error (.decodeErr m)
        | .ok r => .error (.newErr r.Message)) := by
  constructor
  · simp only [CreateAPIKey]
    cases h : decodeAPIError b <;> simp [h]
  · simp only [CreateCollection, if_neg hn, if_neg hf]
    cases h : decodeAPIResponse b <;> simp [h]

/-- Witness for the amended C4 at a decodable and an undecodable 400
body. -/
theorem badRequest_mapping_c4_witness :
    CreateAPIKey "admin key" [] [] (.ok ⟨400, none⟩) =
      .error (.apiErr "bad request") ∧
    CreateAPIKey "admin key" [] []
        (.ok ⟨400, some (.obj [("message", Json.str "oops")])⟩) =
      .error (.apiErr "oops") ∧
    (CreateCollection ⟨"companies", [⟨"name", "string", false⟩], ""⟩
        (.ok ⟨400, some (.obj [("message", Json.str "oops")])⟩)).1 =
      .error (.newErr "oops") :=
  ⟨(badRequest_mapping_c4 "admin key" [] []
      ⟨"companies", [⟨"name", "string", false⟩], ""⟩ (by decide) (by decide)
      none).1.trans (by decide),
   (badRequest_mapping_c4 "admin key" [] []
      ⟨"companies", [⟨"name", "string", false⟩], ""⟩ (by decide) (by decide)
      (some (.obj [("message", Json.str "oops")]))).1.trans (by decide),
   (badRequest_mapping_c4 "admin key" [] []
      ⟨"companies", [⟨"name", "string", false⟩], ""⟩ (by decide) (by decide)
      (some (.obj [("message", Json.str "oops")]))).2.trans (by decide)⟩

/-- C5: `CreateCollection` validates client-side, name first: an empty
name returns the name-required error and an empty field list (with a
non-empty name) the fields-required error, in both cases for every
transport outcome and without issuing the HTTP call (second component
false). -/
theorem createCollection_validation_c5 (schema : CollectionSchema) (t : Transport) :
    (schema.Name = "" →
      CreateCollection schema t = (.error .collectionNameRequired, false)) ∧
    (schema.Name ≠ "" → schema.Fields = [] →
      CreateCollection schema t = (.error .collectionFieldsRequired, false)) := by
  constructor
  · intro h
    simp [CreateCollection, h]
  · intro hn hf
    simp [CreateCollection, hn, hf]

/-- Witness for C5 on an empty-name and an empty-fields schema. -/
theorem createCollection_validation_c5_witness :
    CreateCollection ⟨"", [], ""⟩ (.ok ⟨200, none⟩) =
      (.error .collectionNameRequired, false) ∧
    CreateCollection ⟨"companies", [], ""⟩ (.ok ⟨200, none⟩) =
      (.error .collectionFieldsRequired, false) :=
  ⟨(createCollection_validation_c5 ⟨"", [], ""⟩ (.ok ⟨200, none⟩)).1 rfl,
   (createCollection_validation_c5 ⟨"companies", [], ""⟩ (.ok ⟨200, none⟩)).2
     (by decide) rfl⟩

/-- C6: a 409 response to `CreateCollection` (with a schema passing
validation, so the call is issued) yields the duplicate-collection
error, whatever the body holds. -/
theorem createCollection_conflict_c6 (schema : CollectionSchema)
    (hn : schema.Name ≠ "") (hf : schema.Fields ≠ []) (b : Option Json) :
    CreateCollection schema (.ok ⟨409, b⟩) = (.error .collectionDuplicate, true) := by
  simp [CreateCollection, hn, hf]

/-- Witness for C6. -/
theorem createCollection_conflict_c6_witness :
    CreateCollection ⟨"companies", [⟨"name", "string", false⟩], ""⟩
        (.ok ⟨409, some (.str "already there")⟩) =
      (.error .collectionDuplicate, true) :=
  createCollection_conflict_c6 ⟨"companies", [⟨"name", "string", false⟩], ""⟩
    (by decide) (by decide) (some (.str "already there"))

/-- C7: a 404 response to `RetrieveCollection`, `DeleteCollection`,
`OverrideCollection`, `RetrieveOverrides` or `DeleteOverride` yields the
collection-not-found error, whatever the body holds. -/
theorem notFound_mapping_c7 (collectionName id : String)
    (overrideCfg : Override) (b : Option Json) :
    RetrieveCollection collectionName (.ok ⟨404, b⟩) = .error .collectionNotFound ∧
    DeleteCollection collectionName (.ok ⟨404, b⟩) = .error .collectionNotFound ∧
    OverrideCollection collectionName overrideCfg (.ok ⟨404, b⟩) =
      .error .collectionNotFound ∧
    RetrieveOverrides collectionName (.ok ⟨404, b⟩) = .error .collectionNotFound ∧
    DeleteOverride collectionName id (.ok ⟨404, b⟩) = .error .collectionNotFound := by
  refine ⟨?_, ?_, ?_, ?_, ?_⟩ <;>
    simp [RetrieveCollection, DeleteCollection, OverrideCollection,
      RetrieveOverrides, DeleteOverride]

/-- C8: on the success path, a body decoding to an object that contains
the key "overrides" makes `RetrieveOverrides` return the mapped
sequence unchanged; a decoded object lacking the key yields the error
"response did not return a list of overrides". -/
theorem retrieveOverrides_overrides_key_c8 (collectionName : String)
    (r : Response) (h404 : r.statusCode ≠ 404) (h401 : r.statusCode ≠ 401)
    (m : List (String × List Override)) (hdec : decodeOverridesMap r.body = .ok m) :
    (∀ overrides, lookupLast m "overrides" = some overrides →
      RetrieveOverrides collectionName (.ok r) = .ok overrides) ∧
    (lookupLast m "overrides" = none →
      RetrieveOverrides collectionName (.ok r) =
        .error (.newErr "response did not return a list of overrides")) := by
  constructor
  · intro overrides ho
    simp [RetrieveOverrides, h404, h401, hdec, ho]
  · intro ho
    simp [RetrieveOverrides, h404, h401, hdec, ho]

/-- Witness for C8 on a body with the "overrides" key and one without. -/
theorem retrieveOverrides_overrides_key_c8_witness :
    RetrieveOverrides "companies"
        (.ok ⟨200, some (.obj [("overrides",
          .arr [.obj [("id", Json.str "customize-apple")]])])⟩) =
      .ok [⟨"customize-apple", [], [], ⟨"", ""⟩⟩] ∧
    RetrieveOverrides "companies" (.ok ⟨200, some (.obj [])⟩) =
      .error (.newErr "response did not return a list of overrides") :=
  ⟨(retrieveOverrides_overrides_key_c8 "companies"
      ⟨200, some (.obj [("overrides",
        .arr [.obj [("id", Json.str "customize-apple")]])])⟩
      (by decide) (by decide)
      [("overrides", [⟨"customize-apple", [], [], ⟨"", ""⟩⟩])] (by decide)).1
      [⟨"customize-apple", [], [], ⟨"", ""⟩⟩] (by decide),
   (retrieveOverrides_overrides_key_c8 "companies" ⟨200, some (.obj [])⟩
      (by decide) (by decide) [] (by decide)).2 (by decide)⟩

/-- C9, counterexample: the claim says the package-main variant of
`RetrieveCollection` agrees with the primary one on every transport
response including status 401; but the variant has no 401 branch, so on
a 401 response with body `{}` it decodes a zero collection while the
primary returns the unauthorized error. -/
theorem retrieveCollection_variant_401_differs_c9 :
    PackageMain.RetrieveCollection "companies" (.ok ⟨401, some (.obj [])⟩) =
      .ok ⟨⟨"", [], ""⟩, 0, 0⟩ ∧
    RetrieveCollection "companies" (.ok ⟨401, some (.obj [])⟩) =
      .error .unauthorized ∧
    PackageMain.RetrieveCollection "companies" (.ok ⟨401, some (.obj [])⟩) ≠
      RetrieveCollection "companies" (.ok ⟨401, some (.obj [])⟩) := by
  refine ⟨by decide, by decide, by decide⟩

/-- C9, amended: the package-main variant and the primary
`RetrieveCollection` return the same result for every transport failure
and for every response whose status is not 401; on a 401 response the
variant ignores the status and decodes the body instead of returning
the unauthorized error. -/
theorem retrieveCollection_variant_agrees_c9 (collectionName : String) :
    (∀ e : String, PackageMain.RetrieveCollection collectionName (.error e) =
      RetrieveCollection collectionName (.error e)) ∧
    (∀ r : Response, r.statusCode ≠ 401 →
      PackageMain.RetrieveCollection collectionName (.ok r) =
        RetrieveCollection collectionName (.ok r)) := by
  constructor
  · intro e
    rfl
  · intro r h
    by_cases h404 : r.statusCode = 404 <;>
      simp [PackageMain.RetrieveCollection, RetrieveCollection, h404, h]

/-- Witness for the amended C9 on a transport failure and a 200
response. -/
theorem retrieveCollection_variant_agrees_c9_witness :
    PackageMain.RetrieveCollection "companies" (.error "connection refused") =
      RetrieveCollection "companies" (.error "connection refused") ∧
    PackageMain.RetrieveCollection "companies" (.ok ⟨200, none⟩) =
      RetrieveCollection "companies" (.ok ⟨200, none⟩) :=
  ⟨(retrieveCollection_variant_agrees_c9 "companies").1 "connection refused",
   (retrieveCollection_variant_agrees_c9 "companies").2 ⟨200, none⟩ (by decide)⟩

/-- C10: `OverrideCollection` and `DeleteOverride` return nil error on
every response whose status is neither 404 nor 401 (400, 409 and 500
included), never reading the body; `DeleteAPIKey` returns nil error on
every status other than 401. -/
theorem silent_success_c10 (collectionName id : String)
    (overrideCfg : Override) (keyID : Int)
    (r : Response) (h404 : r.statusCode ≠ 404) (h401 : r.statusCode ≠ 401)
    (r2 : Response) (h401b : r2.statusCode ≠ 401) :
    OverrideCollection collectionName overrideCfg (.ok r) = .ok () ∧
    DeleteOverride collectionName id (.ok r) = .ok () ∧
    DeleteAPIKey keyID (.ok r2) = .ok () := by
  refine ⟨?_, ?_, ?_⟩ <;>
    simp [OverrideCollection, DeleteOverride, DeleteAPIKey, h404, h401, h401b]

/-- Witness for C10 at a 500 response (and a 404 one for
`DeleteAPIKey`). -/
theorem silent_success_c10_witness :
    OverrideCollection "companies" ⟨"customize-apple", [], [], ⟨"exact", "apple"⟩⟩
        (.ok ⟨500, some (.str "boom")⟩) = .ok () ∧
    DeleteOverride "companies" "customize-apple" (.ok ⟨500, some (.str "boom")⟩) =
      .ok () ∧
    DeleteAPIKey 1 (.ok ⟨404, none⟩) = .ok () :=
  silent_success_c10 "companies" "customize-apple"
    ⟨"customize-apple", [], [], ⟨"exact", "apple"⟩⟩ 1
    ⟨500, some (.str "boom")⟩ (by decide) (by decide) ⟨404, none⟩ (by decide)

end Typesense

